import Mathlib

/-!
Shallow embedding of the typed-error pipeline from
`Config_Processing_Utils.h` / `main.c` (namespace `config`).

The C++ code builds a three-stage pipeline `LoadConfig → ValidateData →
ProcessData` over `std::expected<T, PipelineError>`, where `PipelineError`
is a `std::variant` of four failure record types, and the driver renders
the outcome with an exhaustive `std::visit` dispatcher.

We embed `std::expected<T, PipelineError>` as `Except PipelineError T`,
the variant as a closed inductive type, and the filesystem (the one
external collaborator of `LoadConfig`) as a map `String → Option String`
from filenames to contents (`none` = the file cannot be opened).
-/

namespace config

/-- Byte-wise prefix test on char lists, mirroring how `std::string::find`
compares the pattern against each candidate position. -/
def isPre : List Char → List Char → Bool
  | [], _ => true
  | _ :: _, [] => false
  | a :: as, b :: bs => a == b && isPre as bs

/-- Substring search on char lists: `hasSub hay pat = true` iff `pat`
occurs contiguously in `hay`; embeds `hay.find(pat) != std::string::npos`. -/
def hasSub : List Char → List Char → Bool
  | [], pat => isPre pat []
  | h :: t, pat => isPre pat (h :: t) || hasSub t pat

/-- String-level substring containment, embedding
`s.find(pat) != std::string::npos` from the C++ source. -/
def strContains (s pat : String) : Bool :=
  hasSub s.data pat.data

/-- `struct ConfigReadError { std::string filename; }` -/
structure ConfigReadError where
  filename : String
deriving DecidableEq, Repr

/-- `struct ConfigParseError { std::string line_content; int line_number; }` -/
structure ConfigParseError where
  line_content : String
  line_number : Int
deriving DecidableEq, Repr

/-- `struct ValidationError { std::string field_name; std::string invalid_value; }` -/
structure ValidationError where
  field_name : String
  invalid_value : String
deriving DecidableEq, Repr

/-- `struct ProcessingError { std::string task_name; std::string details; }` -/
structure ProcessingError where
  task_name : String
  details : String
deriving DecidableEq, Repr

/-- `using PipelineError = std::variant<ConfigReadError, ConfigParseError,
ValidationError, ProcessingError>;` — the closed failure union. -/
inductive PipelineError where
  | read : ConfigReadError → PipelineError
  | parse : ConfigParseError → PipelineError
  | validation : ValidationError → PipelineError
  | processing : ProcessingError → PipelineError
deriving DecidableEq, Repr

/-- `struct Config { std::string data; }` -/
structure Config where
  data : String
deriving DecidableEq, Repr

/-- `struct ValidatedData { std::string processed_data; }` -/
structure ValidatedData where
  processed_data : String
deriving DecidableEq, Repr

/-- `struct Result { int final_result_code; }`; the held code is a string
length, embedded as `Nat`. -/
structure Result where
  final_result_code : Nat
deriving DecidableEq, Repr

/-- `std::expected<α, PipelineError>` embedded as `Except`. -/
abbrev StageResult (α : Type) := Except PipelineError α

/-- `std::expected::and_then`: if success, apply `f` and adopt its outcome;
if failure, return the existing failure unchanged without invoking `f`. -/
def andThen {α β : Type} (r : StageResult α) (f : α → StageResult β) : StageResult β :=
  match r with
  | .ok a => f a
  | .error e => .error e

/-- A filesystem collaborator: maps a filename to its full content, or
`none` when the file cannot be opened. -/
abbrev FileSystem := String → Option String

/-- `LoadConfig` from `Config_Processing_Utils.h`: fail with
`ConfigReadError{filename}` if the file cannot be opened; fail with
`ConfigParseError{"malformed", 1}` if the content is empty or contains the
substring `"malformed"`; otherwise succeed with `Config{content}`. -/
def LoadConfig (fs : FileSystem) (filename : String) : StageResult Config :=
  match fs filename with
  | none => .error (.read ⟨filename⟩)
  | some content =>
    if content == "" || strContains content "malformed" then
      .error (.parse ⟨"malformed", 1⟩)
    else
      .ok ⟨content⟩

/-- `ValidateData`: fail with `ValidationError{"invalid_field",
"contains disallowed value"}` if the content contains the substring
`"invalid_field"`; otherwise succeed with `"Validated: "` prepended. -/
def ValidateData (config : Config) : StageResult ValidatedData :=
  if strContains config.data "invalid_field" then
    .error (.validation ⟨"invalid_field", "contains disallowed value"⟩)
  else
    .ok ⟨"Validated: " ++ config.data⟩

/-- `ProcessData`: fail with `ProcessingError{"Data Processing",
"Input data too short for task"}` if the content length is below 10;
otherwise succeed with the length as the final result code. -/
def ProcessData (data : ValidatedData) : StageResult Result :=
  if data.processed_data.length < 10 then
    .error (.processing ⟨"Data Processing", "Input data too short for task"⟩)
  else
    .ok ⟨data.processed_data.length⟩

/-- The composed pipeline from `main.c`:
`LoadConfig(f).and_then(ValidateData).and_then(ProcessData)`. -/
def runPipeline (fs : FileSystem) (filename : String) : StageResult Result :=
  andThen (andThen (LoadConfig fs filename) ValidateData) ProcessData

/-- The failure branch of `HandlePipelineResult` in `main.c`: the
`std::visit` over the four variant alternatives, one field-specific
message per failure kind. -/
def renderError : PipelineError → String
  | .read e =>
      "Configuration Read Error: Could not open file '" ++ e.filename ++ "'\n"
  | .parse e =>
      "Configuration Parse Error: Malformed content at line " ++ toString e.line_number
        ++ " (Context: '" ++ e.line_content ++ "')\n"
  | .validation e =>
      "Data Validation Error: Field '" ++ e.field_name
        ++ "' has invalid value '" ++ e.invalid_value ++ "'\n"
  | .processing e =>
      "Data Processing Error: Task '" ++ e.task_name
        ++ "' failed. Details: " ++ e.details ++ "\n"

/-- `HandlePipelineResult` from `main.c` as the text it emits: the success
message with the held code, or the failure banner followed by the
kind-specific message. -/
def HandlePipelineResult : StageResult Result → String
  | .ok r => "\nPipeline Succeeded! Final Result Code: "
      ++ toString r.final_result_code ++ "\n"
  | .error e => "\nPipeline Failed! Error details: " ++ renderError e

/-- Discriminant of the failure union: which of the four alternatives is
held (0 = read, 1 = parse, 2 = validation, 3 = processing). -/
def errKind : PipelineError → Nat
  | .read _ => 0
  | .parse _ => 1
  | .validation _ => 2
  | .processing _ => 3

/-- Recognizer for the processing-failure outcome of a pipeline run. -/
def isProcessingFailure : StageResult Result → Bool
  | .error (.processing _) => true
  | _ => false

/-- First character at index 14 of each failure message: the four message
templates pairwise disagree there ('R', 'P', 'n', 'g'). -/
def kindChar : PipelineError → Char
  | .read _ => 'R'
  | .parse _ => 'P'
  | .validation _ => 'n'
  | .processing _ => 'g'

end config

deriving instance DecidableEq for Except

namespace config

lemma length_pos_of_ne_empty (s : String) (h : s ≠ "") : 1 ≤ s.length := by
  cases s with
  | mk d =>
    cases d with
    | nil => exact absurd rfl h
    | cons a t => simp [String.length]

lemma validated_length (c : String) :
    ("Validated: " ++ c).length = c.length + 11 := by
  have h : "Validated: ".length = 11 := rfl
  rw [String.length_append, h]
  omega

lemma renderError_get14 (e : PipelineError) :
    (renderError e).data[14]? = some (kindChar e) := by
  cases e <;>
    simp only [renderError, kindChar, String.data_append, List.append_assoc] <;>
    rw [List.getElem?_append_left (by decide)] <;> decide

lemma renderError_kind_injective (e₁ e₂ : PipelineError)
    (h : renderError e₁ = renderError e₂) : errKind e₁ = errKind e₂ := by
  have h14 := congrArg (fun s : String => s.data[14]?) h
  simp only [renderError_get14, Option.some.injEq] at h14
  cases e₁ <;> cases e₂ <;> simp_all [kindChar, errKind]

/-- Claim C1: short-circuit and unchanged propagation. If `LoadConfig`
fails with error `e`, the composed pipeline returns exactly `.error e`
whatever the later stage functions are (so neither is invoked and the
failure value reaches the caller unmodified); if `LoadConfig` succeeds and
`ValidateData` fails with `e`, the pipeline returns exactly `.error e`
whatever the process stage is. -/
theorem pipeline_short_circuit (fs : FileSystem) (filename : String) :
    (∀ e, LoadConfig fs filename = .error e →
      ∀ (v : Config → StageResult ValidatedData)
        (p : ValidatedData → StageResult Result),
        andThen (andThen (LoadConfig fs filename) v) p = .error e)
    ∧ (∀ c e, LoadConfig fs filename = .ok c → ValidateData c = .error e →
      ∀ p : ValidatedData → StageResult Result,
        andThen (andThen (LoadConfig fs filename) ValidateData) p = .error e) := by
  constructor
  · intro e he v p
    rw [he]
    rfl
  · intro c e hc he p
    rw [hc]
    show andThen (ValidateData c) p = .error e
    rw [he]
    rfl

/-- Claim C1 witness: concrete read failure and validation failure both
propagate unchanged to the end of the pipeline. -/
theorem pipeline_short_circuit_witness :
    andThen (andThen (LoadConfig (fun _ => none) "missing.txt")
        (fun c => ValidateData c)) ProcessData
      = .error (.read ⟨"missing.txt"⟩)
    ∧ andThen (andThen (LoadConfig (fun _ => some "has invalid_field inside")
        "bad.txt") ValidateData) ProcessData
      = .error (.validation ⟨"invalid_field", "contains disallowed value"⟩) :=
  ⟨(pipeline_short_circuit (fun _ => none) "missing.txt").1 _ rfl _ _,
   (pipeline_short_circuit (fun _ => some "has invalid_field inside") "bad.txt").2
     ⟨"has invalid_field inside"⟩ _ (by decide) (by decide) _⟩

/-- Claim C2: with the source readable and holding `content`, `LoadConfig`
fails with `ConfigParseError{"malformed", 1}` iff the content is empty or
contains the substring `"malformed"`; otherwise it succeeds holding the
content unchanged. -/
theorem LoadConfig_parse_iff (fs : FileSystem) (filename content : String)
    (h : fs filename = some content) :
    (LoadConfig fs filename = .error (.parse ⟨"malformed", 1⟩) ↔
      content = "" ∨ strContains content "malformed" = true)
    ∧ (content ≠ "" → strContains content "malformed" = false →
        LoadConfig fs filename = .ok ⟨content⟩) := by
  simp only [LoadConfig, h]
  by_cases hc : (content == "" || strContains content "malformed") = true
  · rw [if_pos hc]
    simp only [Bool.or_eq_true, beq_iff_eq] at hc
    refine ⟨⟨fun _ => hc, fun _ => rfl⟩, fun hne hns => ?_⟩
    rcases hc with h1 | h2
    · exact absurd h1 hne
    · rw [hns] at h2
      cases h2
  · rw [if_neg hc]
    simp only [Bool.or_eq_true, beq_iff_eq, not_or, Bool.not_eq_true] at hc
    refine ⟨⟨fun habs => absurd habs (by simp), fun hor => absurd hor (by
      rcases hc with ⟨h1, h2⟩
      rintro (h3 | h4)
      · exact h1 h3
      · rw [h2] at h4
        cases h4)⟩, fun _ _ => rfl⟩

/-- Claim C2 witness (Scenario B): content
`"this is malformed configuration"` yields `ConfigParseError{"malformed", 1}`. -/
theorem LoadConfig_parse_iff_witness :
    LoadConfig (fun _ => some "this is malformed configuration") "config.txt"
      = .error (.parse ⟨"malformed", 1⟩) :=
  (LoadConfig_parse_iff (fun _ => some "this is malformed configuration")
    "config.txt" "this is malformed configuration" rfl).1.mpr (Or.inr (by decide))

/-- Claim C3: when the source cannot be opened, `LoadConfig` returns
exactly `ConfigReadError{filename}` — never any of the other three
failure kinds. -/
theorem LoadConfig_read_failure (fs : FileSystem) (filename : String)
    (h : fs filename = none) :
    LoadConfig fs filename = .error (.read ⟨filename⟩) := by
  simp [LoadConfig, h]

/-- Claim C3 witness: an unavailable path `P` yields
`ReadFailure{identifier = P}`. -/
theorem LoadConfig_read_failure_witness :
    LoadConfig (fun _ => none) "non_existent_config.txt"
      = .error (.read ⟨"non_existent_config.txt"⟩) :=
  LoadConfig_read_failure (fun _ => none) "non_existent_config.txt" rfl


/-- Claim C4: `ValidateData` fails exactly when the content contains the
substring `"invalid_field"`, and then with exactly
`ValidationError{"invalid_field", "contains disallowed value"}`; otherwise
it succeeds with `"Validated: "` prepended to the content. -/
theorem ValidateData_spec (c : String) :
    (ValidateData ⟨c⟩
        = .error (.validation ⟨"invalid_field", "contains disallowed value"⟩)
      ↔ strContains c "invalid_field" = true)
    ∧ (strContains c "invalid_field" = false →
        ValidateData ⟨c⟩ = .ok ⟨"Validated: " ++ c⟩) := by
  by_cases hc : strContains c "invalid_field" = true
  · refine ⟨⟨fun _ => hc, fun _ => ?_⟩, fun hf => ?_⟩
    · simp [ValidateData, hc]
    · rw [hf] at hc
      cases hc
  · simp only [Bool.not_eq_true] at hc
    refine ⟨⟨fun habs => ?_, fun ht => ?_⟩, fun _ => ?_⟩
    · simp [ValidateData, hc] at habs
    · rw [ht] at hc
      cases hc
    · simp [ValidateData, hc]

/-- Claim C4 witness: on content `"abc"` validation succeeds and yields
exactly `"Validated: abc"`. -/
theorem ValidateData_spec_witness :
    ValidateData ⟨"abc"⟩ = .ok ⟨"Validated: abc"⟩ := by
  have h := (ValidateData_spec "abc").2 (by decide)
  simpa using h

/-- Claim C5: `ProcessData` fails exactly when the content length is
strictly below 10, and then with exactly
`ProcessingError{"Data Processing", "Input data too short for task"}`;
otherwise it succeeds with the content length as the final result code. -/
theorem ProcessData_spec (d : String) :
    (ProcessData ⟨d⟩
        = .error (.processing ⟨"Data Processing", "Input data too short for task"⟩)
      ↔ d.length < 10)
    ∧ (10 ≤ d.length → ProcessData ⟨d⟩ = .ok ⟨d.length⟩) := by
  by_cases hd : d.length < 10
  · refine ⟨⟨fun _ => hd, fun _ => ?_⟩, fun hge => absurd hd (by omega)⟩
    simp [ProcessData, hd]
  · refine ⟨⟨fun habs => ?_, fun ht => absurd ht hd⟩, fun _ => ?_⟩
    · simp [ProcessData, hd] at habs
    · simp [ProcessData, hd]

/-- Claim C5 witness (Scenario D): a `ValidatedData` built directly with
content `"x"` makes `ProcessData` fail with the processing error. -/
theorem ProcessData_spec_witness :
    ProcessData ⟨"x"⟩
      = .error (.processing ⟨"Data Processing", "Input data too short for task"⟩) :=
  (ProcessData_spec "x").1.mpr (by decide)

/-- Claim C6 counterexample: on source content `"valid_data_content"` the
pipeline succeeds with final result code 29, not 30 as the claim states —
the content is 18 characters long, not 19. -/
theorem scenarioE_code_not_30 :
    runPipeline (fun _ => some "valid_data_content") "valid_config.txt"
        ≠ .ok ⟨30⟩
    ∧ runPipeline (fun _ => some "valid_data_content") "valid_config.txt"
        = .ok ⟨29⟩
    ∧ "valid_data_content".length = 18 := by
  refine ⟨?_, by decide, by decide⟩
  intro h
  rw [show runPipeline (fun _ => some "valid_data_content") "valid_config.txt"
      = .ok ⟨29⟩ from by decide] at h
  cases h

/-- Claim C6 (amended): on source content `"valid_data_content"` (18
characters, no forbidden markers) the full pipeline succeeds and the final
result code equals 18 + 11 = 29. -/
theorem scenarioE_code_29 :
    runPipeline (fun _ => some "valid_data_content") "valid_config.txt"
      = .ok ⟨"valid_data_content".length + 11⟩ := by decide

/-- Claim C7: the composed pipeline never ends in a processing failure,
because a successful `ValidateData` always returns content at least 11
characters longer than its input, so `ProcessData` never observes content
shorter than 10. -/
theorem processing_failure_unreachable (fs : FileSystem) (filename : String) :
    isProcessingFailure (runPipeline fs filename) = false
    ∧ (∀ c v, ValidateData c = .ok v →
        c.data.length + 11 ≤ v.processed_data.length) := by
  have hval : ∀ c v, ValidateData c = .ok v →
      v.processed_data = "Validated: " ++ c.data := by
    intro c v hv
    by_cases hc : strContains c.data "invalid_field" = true
    · simp [ValidateData, hc] at hv
    · simp only [Bool.not_eq_true] at hc
      simp [ValidateData, hc] at hv
      rw [← hv]
  constructor
  · unfold runPipeline
    cases hfs : fs filename with
    | none =>
      simp [andThen, LoadConfig, hfs, isProcessingFailure]
    | some content =>
      by_cases hp : (content == "" || strContains content "malformed") = true
      · simp [andThen, LoadConfig, hfs, hp, isProcessingFailure]
      · simp only [LoadConfig, hfs, hp, if_neg, Bool.not_eq_true]
        cases hv : ValidateData ⟨content⟩ with
        | error e =>
          have : ∃ f, e = .validation f := by
            by_cases hc : strContains content "invalid_field" = true
            · simp [ValidateData, hc] at hv
              exact ⟨_, hv.symm⟩
            · simp only [Bool.not_eq_true] at hc
              simp [ValidateData, hc] at hv
          rcases this with ⟨f, rfl⟩
          simp [andThen, hv, isProcessingFailure]
        | ok v =>
          have hlen : 10 ≤ v.processed_data.length := by
            rw [hval ⟨content⟩ v hv, validated_length]
            omega
          simp [andThen, hv, ProcessData, Nat.not_lt_of_le hlen, isProcessingFailure]
  · intro c v hv
    rw [hval c v hv]
    have := validated_length c.data
    simp only [String.length] at this ⊢
    omega

/-- Claim C7 witness: the pipeline on the short content `"short"` (whose
validated form has length 16) does not end in a processing failure, and a
concrete successful validation grows the content by 11. -/
theorem processing_failure_unreachable_witness :
    isProcessingFailure (runPipeline (fun _ => some "short") "short.txt") = false
    ∧ (Config.mk "tiny").data.data.length + 11
        ≤ (ValidatedData.mk "Validated: tiny").processed_data.length :=
  ⟨(processing_failure_unreachable (fun _ => some "short") "short.txt").1,
   (processing_failure_unreachable (fun _ => none) "x").2
     ⟨"tiny"⟩ ⟨"Validated: tiny"⟩ (by decide)⟩

/-- Claim C8: the dispatcher covers all four failure kinds exhaustively
(in the embedding, `renderError` is a total match over the closed union):
the success message reports the held code, the failure path delegates to
the kind-specific handler, each handler's message echoes exactly the
fields of its matching record, and messages of different failure kinds
are always distinct (the rendered text determines the kind). -/
theorem dispatcher_exhaustive_distinct :
    (∀ n : Nat, HandlePipelineResult (.ok ⟨n⟩)
        = "\nPipeline Succeeded! Final Result Code: " ++ toString n ++ "\n")
    ∧ (∀ e, HandlePipelineResult (.error e)
        = "\nPipeline Failed! Error details: " ++ renderError e)
    ∧ (∀ f, renderError (.read ⟨f⟩)
        = "Configuration Read Error: Could not open file '" ++ f ++ "'\n")
    ∧ (∀ c n, renderError (.parse ⟨c, n⟩)
        = "Configuration Parse Error: Malformed content at line " ++ toString n
            ++ " (Context: '" ++ c ++ "')\n")
    ∧ (∀ f v, renderError (.validation ⟨f, v⟩)
        = "Data Validation Error: Field '" ++ f
            ++ "' has invalid value '" ++ v ++ "'\n")
    ∧ (∀ t d, renderError (.processing ⟨t, d⟩)
        = "Data Processing Error: Task '" ++ t
            ++ "' failed. Details: " ++ d ++ "\n")
    ∧ (∀ e₁ e₂, renderError e₁ = renderError e₂ → errKind e₁ = errKind e₂) :=
  ⟨fun _ => rfl, fun _ => rfl, fun _ => rfl, fun _ _ => rfl, fun _ _ => rfl,
   fun _ _ => rfl, renderError_kind_injective⟩

/-- Claim C8 witness: concrete success message, and two renderings of the
same read failure agree in kind. -/
theorem dispatcher_exhaustive_distinct_witness :
    HandlePipelineResult (.ok ⟨30⟩)
      = "\nPipeline Succeeded! Final Result Code: " ++ toString 30 ++ "\n"
    ∧ errKind (.read ⟨"a.txt"⟩) = errKind (.read ⟨"a.txt"⟩) :=
  ⟨dispatcher_exhaustive_distinct.1 30,
   dispatcher_exhaustive_distinct.2.2.2.2.2.2 (.read ⟨"a.txt"⟩) (.read ⟨"a.txt"⟩) rfl⟩

/-- Claim C9: a readable source with empty content makes `LoadConfig` fail
with `ConfigParseError{"malformed", 1}` — the very same error value
produced for content that actually contains the substring `"malformed"` —
even though `"malformed"` does not occur in the empty content. -/
theorem empty_content_same_parse_error (fs : FileSystem) (filename : String)
    (h : fs filename = some "") :
    LoadConfig fs filename = .error (.parse ⟨"malformed", 1⟩)
    ∧ (∀ (fs₂ : FileSystem) (n₂ c : String), fs₂ n₂ = some c →
        strContains c "malformed" = true →
        LoadConfig fs₂ n₂ = .error (.parse ⟨"malformed", 1⟩))
    ∧ strContains "" "malformed" = false := by
  refine ⟨by simp [LoadConfig, h], fun fs₂ n₂ c hc hm => ?_, by decide⟩
  simp [LoadConfig, hc, hm]

/-- Claim C9 witness: the empty-content error and the marker-content error
are the identical value, produced at concrete inputs. -/
theorem empty_content_same_parse_error_witness :
    LoadConfig (fun _ => some "") "empty.txt" = .error (.parse ⟨"malformed", 1⟩)
    ∧ LoadConfig (fun _ => some "very malformed text") "marked.txt"
        = .error (.parse ⟨"malformed", 1⟩) :=
  ⟨(empty_content_same_parse_error (fun _ => some "") "empty.txt" rfl).1,
   (empty_content_same_parse_error (fun _ => some "") "empty.txt" rfl).2.1
     (fun _ => some "very malformed text") "marked.txt" "very malformed text"
     rfl (by decide)⟩

/-- Claim C10: whenever the full pipeline succeeds on a readable source
with content `c`, the final result code is exactly `c.length + 11`, and —
since `LoadConfig` rejects empty content — it is always at least 12. -/
theorem pipeline_success_code (fs : FileSystem) (filename c : String)
    (r : Result) (hc : fs filename = some c)
    (hr : runPipeline fs filename = .ok r) :
    r.final_result_code = c.length + 11 ∧ 12 ≤ r.final_result_code := by
  by_cases hp : (c == "" || strContains c "malformed") = true
  · rw [show runPipeline fs filename
        = .error (.parse ⟨"malformed", 1⟩) from by
      simp [runPipeline, andThen, LoadConfig, hc, hp]] at hr
    cases hr
  · have hload : LoadConfig fs filename = .ok ⟨c⟩ := by
      simp only [LoadConfig, hc]
      rw [if_neg hp]
    have hcne : c ≠ "" := by
      intro hceq
      apply hp
      rw [hceq]
      simp
    by_cases hv : strContains c "invalid_field" = true
    · rw [show runPipeline fs filename
          = .error (.validation ⟨"invalid_field", "contains disallowed value"⟩) from by
        simp [runPipeline, andThen, hload, ValidateData, hv]] at hr
      cases hr
    · simp only [Bool.not_eq_true] at hv
      have hlen : ("Validated: " ++ c).length = c.length + 11 := validated_length c
      have hge : ¬ ("Validated: " ++ c).length < 10 := by omega
      have hstep : runPipeline fs filename = ProcessData ⟨"Validated: " ++ c⟩ := by
        unfold runPipeline
        rw [hload]
        show andThen (ValidateData ⟨c⟩) ProcessData = _
        rw [show ValidateData ⟨c⟩ = .ok ⟨"Validated: " ++ c⟩ from by
          simp [ValidateData, hv]]
        rfl
      rw [hstep] at hr
      unfold ProcessData at hr
      rw [if_neg hge] at hr
      cases hr
      have hpos := length_pos_of_ne_empty c hcne
      constructor
      · exact hlen
      · show 12 ≤ ("Validated: " ++ c).length
        rw [hlen]
        omega

/-- Claim C10 witness: the successful run on `"valid_data_content"` has
code 29 = 18 + 11 ≥ 12. -/
theorem pipeline_success_code_witness :
    (Result.mk 29).final_result_code = "valid_data_content".length + 11
    ∧ 12 ≤ (Result.mk 29).final_result_code :=
  pipeline_success_code (fun _ => some "valid_data_content") "cfg.txt"
    "valid_data_content" ⟨29⟩ rfl (by decide)

end config
